import Mathlib

/-!
Verification development for the isle insurance-market simulation.

The Python sources (`insurancesimulation.py`, `insurancefirms.py`) are shallowly
embedded below: floating-point quantities become rationals (`ℚ`), the seeded
numpy random stream becomes an explicit oracle supplying the draws, list and
dictionary state becomes explicit Lean data, and a Python statement sequence
that can raise an uncaught exception becomes an `Except`-valued function.
An `assert` that the source wraps in `try/except print` is embedded as a
recorded warning, because the exception is swallowed and execution continues.
-/

namespace Isle

/-! ## Obligation ledger (insurancesimulation.py, `receive_obligation` /
`effect_payments` / `pay`) -/

/-- One pending payment, as queued by `receive_obligation`
(insurancesimulation.py line 265): an amount, a recipient and a due time.
Recipients are identified by a numeric id. -/
structure Obligation where
  amount : ℚ
  recipient : Nat
  dueTime : ℤ
deriving DecidableEq

/-- The monetary state touched by `effect_payments` and `pay`: the money
supply, the pending obligation list, the cash credited to each recipient
(a firm's `receive` adds the amount to its cash), and a count of the
"Something wrong: economy out of money" warnings printed by the swallowed
assertion in `pay` (insurancesimulation.py lines 279-282). -/
structure SimState where
  moneySupply : ℚ
  obligations : List Obligation
  received : Nat → ℚ
  warnings : Nat

/-- `pay` (insurancesimulation.py lines 277-284).  The source asserts
`money_supply > amount` inside `try/except`; on failure it only prints and
falls through, so the embedding records a warning and still performs the
transfer: the money supply is decremented and the recipient credited. -/
def pay (s : SimState) (amount : ℚ) (recipient : Nat) : SimState :=
  { s with
    warnings := if amount < s.moneySupply then s.warnings else s.warnings + 1
    moneySupply := s.moneySupply - amount
    received := fun r => if r = recipient then s.received r + amount else s.received r }

/-- `effect_payments` (insurancesimulation.py lines 269-275): split the
obligations into those due (`due_time <= time`) and those kept
(`due_time > time`), then `pay` each due obligation in order. -/
def effectPayments (s : SimState) (time : ℤ) : SimState :=
  let due := s.obligations.filter (fun o => o.dueTime ≤ time)
  let s1 : SimState := { s with obligations := s.obligations.filter (fun o => time < o.dueTime) }
  due.foldl (fun st o => pay st o.amount o.recipient) s1

/-! ## Catastrophe event schedule (insurancesimulation.py, `iterate`
lines 184-196) -/

/-- One category's schedule step inside `iterate`.  The source asserts
`rc_event_schedule[categ_id][0] >= t` inside `try/except` (print and
continue), then pops the head and inflicts the peril exactly when the head
equals `t`.  Result: the new schedule, whether the category fired (peril
inflicted), and whether the stale-head warning was printed. -/
def processCategory (t : ℤ) (sched : List ℤ) : List ℤ × Bool × Bool :=
  match sched with
  | [] => ([], false, false)
  | h :: rest => (if h = t then rest else h :: rest, decide (h = t), decide (h < t))

/-- Outcome of the per-category event loop of `iterate`: updated schedules,
the categories for which `inflict_peril` was called, and the categories for
which the "Something wrong; past events not deleted" warning was printed. -/
structure PerilStep where
  schedules : List (List ℤ)
  fired : List Nat
  warned : List Nat
deriving DecidableEq

/-- The `for categ_id in range(len(rc_event_schedule))` loop of `iterate`
(insurancesimulation.py lines 185-196), applying `processCategory` to every
category. -/
def iterateEvents (t : ℤ) (scheds : List (List ℤ)) : PerilStep :=
  { schedules := scheds.map (fun s => (processCategory t s).1)
    fired := (List.range scheds.length).filter (fun i => (processCategory t (scheds.getD i [])).2.1)
    warned := (List.range scheds.length).filter (fun i => (processCategory t (scheds.getD i [])).2.2) }

/-! ## Peril infliction (insurancesimulation.py, `inflict_peril`
lines 256-263) -/

/-- The numpy random stream, as an oracle: `beta a b n i` is the i-th entry
of `np.random.beta(a, b, size=n)` and `uniform lo hi n i` the i-th entry of
`np.random.uniform(lo, hi, size=n)`. -/
structure Rng where
  beta : ℚ → ℚ → Nat → Nat → ℚ
  uniform : ℚ → ℚ → Nat → Nat → ℚ

/-- A contract as seen by `inflict_peril`: only its identity and category
matter for selecting the affected contracts. -/
structure ContractRef where
  id : Nat
  category : Nat
deriving DecidableEq

/-- One `contract.explode(expire_immediately, t, uniformvalues[i], damagevalues[i])`
call issued by `inflict_peril`. -/
structure ExplodeCall where
  contractId : Nat
  expireImmediately : Bool
  time : ℤ
  uniformValue : ℚ
  damageValue : ℚ
deriving DecidableEq

/-- The Beta parameters used at insurancesimulation.py line 261:
`np.random.beta(1, 1./damage - 1)`. -/
def betaParams (damage : ℚ) : ℚ × ℚ := (1, 1 / damage - 1)

/-- Mean of a Beta(a, b) distribution: a / (a + b). -/
def betaMean (p : ℚ × ℚ) : ℚ := p.1 / (p.1 + p.2)

/-- `inflict_peril` (insurancesimulation.py lines 256-263): collect the
underwritten contracts of the category, draw one per-contract Beta damage
vector with parameters `betaParams damage` and one per-contract uniform
vector on [0, 1], and call `explode` on each affected contract with its
draws.  The category-level severity `damage` is itself a draw from the
global damage distribution (uniform on [0, 1]); it is passed in here. -/
def inflictPeril (rng : Rng) (contracts : List ContractRef) (categId : Nat)
    (expireImmediately : Bool) (t : ℤ) (damage : ℚ) : List ExplodeCall :=
  let affected := contracts.filter (fun c => c.category = categId)
  let n := affected.length
  let p := betaParams damage
  (List.range n).map (fun i =>
    { contractId := (affected.getD i ⟨0, 0⟩).id
      expireImmediately := expireImmediately
      time := t
      uniformValue := rng.uniform 0 1 n i
      damageValue := rng.beta p.1 p.2 n i })

/-! ## Market premium (insurancesimulation.py, `adjust_market_premium`
lines 319-322) -/

/-- `adjust_market_premium`: the premium is the base (norm) premium times a
decreasing linear function of aggregate capital, clamped from below at
`lower_price_limit * norm_premium`.  There is no clamp from above. -/
def adjustMarketPremium (normPremium upperPriceLimit lowerPriceLimit noRisks capital : ℚ) : ℚ :=
  let p := normPremium * (upperPriceLimit - capital / (normPremium * noRisks))
  if p < normPremium * lowerPriceLimit then normPremium * lowerPriceLimit else p

/-! ## Insurance firms (insurancefirms.py) -/

/-- One entry of `underwritten_risk_characterisation`, unpacked in the
source as `[total_value, avg_risk_factor, number_risks, periodized_total_premium]`
(insurancefirms.py line 273). -/
structure RiskChar where
  totalValue : ℚ
  avgRiskFactor : ℚ
  numberRisks : ℚ
  periodizedTotalPremium : ℚ
deriving DecidableEq

/-- The firm state read by the methods under verification.  `riskChar` is
indexed by category.  `uncovered` holds, per category, the interval list
returned by `reinsurance_profile.uncovered(categ)`; `profileContracts` the
list returned by `reinsurance_profile.all_contracts()`.  Modelled from the
spec: the `ReinsuranceProfile` class itself is not among the sources; §4.4
describes it as tracking disjoint covered value intervals, `uncovered`
returning the complementary intervals of [0, total value] in ascending
order (the whole of [0, V] for an empty profile) and `all_contracts`
returning the contracts currently placed, so both are taken here as
explicit firm state. -/
structure Firm where
  cash : ℚ
  capacityTarget : ℚ
  capacityTargetIncrementThreshold : ℚ
  capacityTargetDecrementThreshold : ℚ
  capacityTargetIncrementFactor : ℚ
  capacityTargetDecrementFactor : ℚ
  npReinsuranceDeductibleFraction : ℚ
  npReinsuranceLimitFraction : ℚ
  interestRate : ℚ
  riskChar : List RiskChar
  uncovered : List (List (ℚ × ℚ))
  profileContracts : List Nat
deriving DecidableEq

/-- A firm with all fields empty or zero, used as a base for concrete
instances. -/
def firm0 : Firm :=
  { cash := 0, capacityTarget := 0
    capacityTargetIncrementThreshold := 0, capacityTargetDecrementThreshold := 0
    capacityTargetIncrementFactor := 0, capacityTargetDecrementFactor := 0
    npReinsuranceDeductibleFraction := 0, npReinsuranceLimitFraction := 0
    interestRate := 0, riskChar := [], uncovered := [], profileContracts := [] }

/-- `get_reinsurable_fraction` (insurancefirms.py lines 62-76): for each
category, sum over the uncovered regions intersecting the open band
(`region[1] > deductible_fraction * value` and
`region[0] < limit_fraction * value`) the clipped fraction
`min(region[1]/value, limit_fraction) - max(region[0]/value, deductible_fraction)`,
then divide the total by the number of categories. -/
def getReinsurableFraction (firm : Firm) (valueByCategory : List ℚ) : ℚ :=
  let total := ((List.range valueByCategory.length).map (fun categ =>
    let value := valueByCategory.getD categ 0
    let maximumExcess := firm.npReinsuranceLimitFraction * value
    let minimumDeductible := firm.npReinsuranceDeductibleFraction * value
    (((firm.uncovered.getD categ []).map (fun region =>
      if minimumDeductible < region.2 ∧ region.1 < maximumExcess then
        min (region.2 / value) firm.npReinsuranceLimitFraction
          - max (region.1 / value) firm.npReinsuranceDeductibleFraction
      else 0)).sum))).sum
  total / (valueByCategory.length : ℚ)

/-- `get_reinsurance_var_estimate` (insurancefirms.py lines 46-60): the
values list is `underwritten_risk_characterisation[categ][2]` for each
category — index 2 of the characterisation, i.e. `number_risks` — and the
estimate is `max_var * (1 + get_reinsurable_fraction(values))`. -/
def reinsuranceVarEstimate (firm : Firm) (maxVar : ℚ) : ℚ :=
  maxVar * (1 + getReinsurableFraction firm (firm.riskChar.map RiskChar.numberRisks))

/-- `adjust_capacity_target` (insurancefirms.py lines 78-104), returning the
new capacity target.  When `max_var + reinsurance_var_estimate == 0` the
source sets the target/VaR estimate to `np.inf` instead of dividing; since
`np.inf` exceeds any finite increment threshold, that branch multiplies the
target by the increment factor.  Otherwise the quotient is compared against
the increment threshold (strictly above: multiply by the increment factor)
and then the decrement threshold (strictly below: multiply by the decrement
factor); otherwise the target is unchanged. -/
def adjustCapacityTarget (firm : Firm) (maxVar : ℚ) : ℚ :=
  let est := reinsuranceVarEstimate firm maxVar
  if maxVar + est = 0 then firm.capacityTarget * firm.capacityTargetIncrementFactor
  else
    let q := (firm.capacityTarget + est) / (maxVar + est)
    if firm.capacityTargetIncrementThreshold < q then
      firm.capacityTarget * firm.capacityTargetIncrementFactor
    else if q < firm.capacityTargetDecrementThreshold then
      firm.capacityTarget * firm.capacityTargetDecrementFactor
    else firm.capacityTarget

/-- `get_capacity` (insurancefirms.py lines 106-121): `if max_var < self.cash`
return cash plus the reinsurance VaR estimate, else return cash alone.
The method reads but never writes firm state. -/
def getCapacity (firm : Firm) (maxVar : ℚ) : ℚ :=
  if maxVar < firm.cash then firm.cash + reinsuranceVarEstimate firm maxVar else firm.cash

/-! ## Tranche allocation
(insurancefirms.py, `ask_reinsurance_non_proportional_by_category`
lines 254-324) -/

/-- A `RiskProperties` record as built for an excess-of-loss reinsurance
request or a cat bond (owner omitted: it is the issuing firm itself). -/
structure RiskProperties where
  value : ℚ
  category : Nat
  insurancetype : String
  numberRisks : ℚ
  deductibleFraction : ℚ
  limitFraction : ℚ
  periodizedTotalPremium : ℚ
  runtime : Nat
  expiration : ℤ
  riskFactor : ℚ
deriving DecidableEq

/-- The first clipping loop (insurancefirms.py lines 278-282), acting on the
reversed interval list so that the Python `tranches[-1]` accesses become
head accesses: while the last interval ends above `limit_fraction * V`, pop
it if it also starts at or above that bound, else truncate its end to the
bound (after which the loop condition fails).  Evaluating `tranches[-1]` on
an emptied list raises an uncaught `IndexError`, embedded as `Except.error`. -/
def clipTopRev (limV : ℚ) : List (ℚ × ℚ) → Except Unit (List (ℚ × ℚ))
  | [] => Except.error ()
  | (a, b) :: rest =>
    if limV < b then
      if limV ≤ a then clipTopRev limV rest
      else Except.ok ((a, limV) :: rest)
    else Except.ok ((a, b) :: rest)

/-- The first clipping loop on the list in source order. -/
def clipTop (limV : ℚ) (l : List (ℚ × ℚ)) : Except Unit (List (ℚ × ℚ)) :=
  (clipTopRev limV l.reverse).map List.reverse

/-- The second clipping loop (insurancefirms.py lines 283-289): while the
first interval starts below `deductible_fraction * V`, drop it if it also
ends at or below that bound — breaking out if the list becomes empty — else
raise its start to the bound (after which the loop condition fails). -/
def clipBottom (dedV : ℚ) : List (ℚ × ℚ) → Except Unit (List (ℚ × ℚ))
  | [] => Except.error ()
  | (a, b) :: rest =>
    if a < dedV then
      if b ≤ dedV then
        match rest with
        | [] => Except.ok []
        | r :: rs => clipBottom dedV (r :: rs)
      else Except.ok ((dedV, b) :: rest)
    else Except.ok ((a, b) :: rest)

/-- The size test of the discard loop (insurancefirms.py line 291):
`(tranche[1] - tranche[0]) / total_value
   <= min(2 / total_value, 0.05 * (limit_fraction - deductible_fraction))`. -/
def trancheTooSmall (firm : Firm) (totalValue : ℚ) (tr : ℚ × ℚ) : Prop :=
  (tr.2 - tr.1) / totalValue
    ≤ min (2 / totalValue)
        (5 / 100 * (firm.npReinsuranceLimitFraction - firm.npReinsuranceDeductibleFraction))

instance (firm : Firm) (totalValue : ℚ) : DecidablePred (trancheTooSmall firm totalValue) :=
  fun _ => inferInstanceAs (Decidable (_ ≤ _))

/-- `list.remove(x)`: remove the first element equal to `x`. -/
def eraseFirst (x : ℚ × ℚ) : List (ℚ × ℚ) → List (ℚ × ℚ)
  | [] => []
  | y :: ys => if y = x then ys else y :: eraseFirst x ys

/-- The discard loop (insurancefirms.py lines 290-294) with Python's
iterate-while-mutating semantics: the `for` loop walks an index through the
list while `tranches.remove(tranche)` shrinks it in place, so the element
following a removed one is skipped.  The fuel argument only serves
structural recursion: every step advances the index and never lengthens the
list, so `l.length` steps always reach the loop's own exit condition. -/
def discardLoopF (small : ℚ × ℚ → Prop) [DecidablePred small] :
    Nat → List (ℚ × ℚ) → Nat → List (ℚ × ℚ)
  | 0, l, _ => l
  | fuel + 1, l, i =>
    if i < l.length then
      if small (l.getD i (0, 0)) then
        discardLoopF small fuel (eraseFirst (l.getD i (0, 0)) l) (i + 1)
      else discardLoopF small fuel l (i + 1)
    else l

/-- The discard loop, entered at index 0 as in the source. -/
def discardLoop (small : ℚ × ℚ → Prop) [DecidablePred small]
    (l : List (ℚ × ℚ)) : List (ℚ × ℚ) :=
  discardLoopF small l.length l 0

/-- Modelled from the spec: `ReinsuranceProfile.split_longest` is not among
the sources.  Spec §4.4 step 5 bisects the currently-longest interval; here
the first interval of maximal length `m` is replaced by its two halves. -/
def splitFirstMax (m : ℚ) : List (ℚ × ℚ) → List (ℚ × ℚ)
  | [] => []
  | p :: rest =>
    if p.2 - p.1 = m then (p.1, (p.1 + p.2) / 2) :: ((p.1 + p.2) / 2, p.2) :: rest
    else p :: splitFirstMax m rest

/-- Modelled from the spec: bisect the longest interval of the list
(spec §4.4 step 5). -/
def splitLongest (l : List (ℚ × ℚ)) : List (ℚ × ℚ) :=
  splitFirstMax ((l.map (fun p => p.2 - p.1)).foldr max 0) l

/-- The `while len(tranches) < min_tranches and not
self.reinsurance_profile.all_contracts()` loop (insurancefirms.py
lines 300-301); the Python truthiness test `not all_contracts()` holds
exactly when the profile's contract list is empty.  The loop runs on fuel:
each `split_longest` lengthens a nonempty list by one, so `minTranches`
rounds of fuel always reach the bound. -/
def growTranches (contracts : List Nat) (minTranches : Nat) :
    Nat → List (ℚ × ℚ) → List (ℚ × ℚ)
  | 0, l => l
  | n + 1, l =>
    if l.length < minTranches ∧ contracts = [] then
      growTranches contracts minTranches n (splitLongest l)
    else l

/-- The `RiskProperties` built for one tranche (insurancefirms.py
lines 305-316): fractions are the tranche bounds divided by the total
value, runtime is the hard-coded 12 and expiration `time + 12`. -/
def mkTrancheRisk (rc : RiskChar) (categ : Nat) (time : ℤ) (tr : ℚ × ℚ) : RiskProperties :=
  { value := rc.totalValue, category := categ, insurancetype := "excess-of-loss"
    numberRisks := rc.numberRisks
    deductibleFraction := tr.1 / rc.totalValue, limitFraction := tr.2 / rc.totalValue
    periodizedTotalPremium := rc.periodizedTotalPremium
    runtime := 12, expiration := time + 12, riskFactor := rc.avgRiskFactor }

/-- `ask_reinsurance_non_proportional_by_category` (insurancefirms.py
lines 254-324).  Result on success: the risks appended to the simulation's
reinsurance pool (purpose "newrisk") and the optional returned risk list
(purpose "rollover").  With no underwritten risks nothing is emitted and
`None` is returned.  The uncaught `assert tranche[1] > tranche[0]` at
line 304 and the `IndexError` reachable in the first clipping loop are
embedded as `Except.error`. -/
def askReinsuranceNonProportionalByCategory (firm : Firm) (time : ℤ) (categId : Nat)
    (purpose : String) (minTranches : Nat) :
    Except Unit (List RiskProperties × Option (List RiskProperties)) :=
  let rc := firm.riskChar.getD categId ⟨0, 0, 0, 0⟩
  if 0 < rc.numberRisks then
    match clipTop (firm.npReinsuranceLimitFraction * rc.totalValue)
        (firm.uncovered.getD categId []) with
    | Except.error _ => Except.error ()
    | Except.ok t1 =>
      match clipBottom (firm.npReinsuranceDeductibleFraction * rc.totalValue) t1 with
      | Except.error _ => Except.error ()
      | Except.ok t2 =>
        let t3 := discardLoop (trancheTooSmall firm rc.totalValue) t2
        if t3 = [] then Except.ok ([], none)
        else
          let t4 := growTranches firm.profileContracts minTranches minTranches t3
          if ∀ tr ∈ t4, tr.1 < tr.2 then
            let risks := t4.map (mkTrancheRisk rc categId time)
            if purpose = "newrisk" then Except.ok (risks, none)
            else if purpose = "rollover" then Except.ok ([], some risks)
            else Except.ok ([], none)
          else Except.error ()
  else Except.ok ([], none)

/-! ## Cat-bond issuance (insurancefirms.py, `issue_cat_bond`
lines 373-425) -/

/-- The discounted premium stream of `issue_cat_bond`
(insurancefirms.py lines 401-402):
`sum(per_period_premium * ((1 / (1 + interest_rate)) ** i) for i in range(runtime))`. -/
def totalPremium (perPeriodPremium : ℚ) (runtime : Nat) (interestRate : ℚ) : ℚ :=
  ((List.range runtime).map (fun i => perPeriodPremium * (1 / (1 + interestRate)) ^ i)).sum

/-- The effects of a completed `issue_cat_bond` call: the firm's cash after
the `_pay`, the cat bond's cash, the obligation the simulation takes on
towards the firm (amount and due time; the recipient is the issuing firm),
and the risk the bond covers. -/
structure CatBondResult where
  firmCash : ℚ
  bondCash : ℚ
  obligationToFirm : ℚ × ℤ
  risk : RiskProperties
deriving DecidableEq

/-- `issue_cat_bond` (insurancefirms.py lines 373-425).  With no
underwritten risks in the category nothing happens (`none`).  Otherwise the
firm pays `var_this_risk + total_premium` to the newly created bond at once
and the simulation owes the firm `var_this_risk` due immediately.
`var_this_risk` is the opaque `riskmodel.evaluate` quote, passed in as a
parameter.  Modelled from the spec: `MetaInsuranceOrg._pay` and
`CatBond.receive` are not among the sources; §4.5 says issuance "funds the
bond vehicle immediately with VaR-equivalent capital plus the discounted
premium stream", so `_pay` deducts the obligation amount from the firm's
cash and credits it to the bond. -/
def issueCatBond (firm : Firm) (time : ℤ) (categId : Nat)
    (perValuePerPeriodPremium : ℚ) (varThisRisk : ℚ) : Option CatBondResult :=
  let rc := firm.riskChar.getD categId ⟨0, 0, 0, 0⟩
  if 0 < rc.numberRisks then
    let risk : RiskProperties :=
      { value := rc.totalValue, category := categId, insurancetype := "excess-of-loss"
        numberRisks := rc.numberRisks
        deductibleFraction := firm.npReinsuranceDeductibleFraction
        limitFraction := firm.npReinsuranceLimitFraction
        periodizedTotalPremium := 0
        runtime := 12, expiration := time + 12, riskFactor := rc.avgRiskFactor }
    let perPeriodPremium := perValuePerPeriodPremium * risk.value
    let total := totalPremium perPeriodPremium risk.runtime firm.interestRate
    some { firmCash := firm.cash - (varThisRisk + total)
           bondCash := varThisRisk + total
           obligationToFirm := (varThisRisk, time)
           risk := risk }
  else none

/-! ## Concrete instances used by the theorems -/

/-- The firm of the tranche-split scenario: total value 1000 in category 0,
deductible fraction 0.1, limit fraction 0.5, an empty reinsurance profile
(so the whole of [0, 1000] is uncovered and no contracts are placed). -/
def c1GoodFirm : Firm :=
  { firm0 with
    npReinsuranceDeductibleFraction := 1/10
    npReinsuranceLimitFraction := 1/2
    riskChar := [⟨1000, 1, 5, 0⟩]
    uncovered := [[(0, 1000)]] }

/-- The same firm with a single uncovered interval [100, 110) of width 10 —
below the 20 the claimed discard rule would require, above the 2 the code
actually uses. -/
def c1BadFirm : Firm := { c1GoodFirm with uncovered := [[(100, 110)]] }

/-- A ledger state: money supply 50, one obligation of 100 to recipient 7
due at time 1. -/
def c2State : SimState := ⟨50, [⟨100, 7, 1⟩], fun _ => 0, 0⟩

/-- The cat-bond issuing firm: cash 1000, interest rate 0.01, total value
1000 in category 0, so a per-value premium of 0.01 gives the claimed
per-period premium of 10. -/
def c4Firm : Firm :=
  { firm0 with
    cash := 1000
    interestRate := 1/100
    npReinsuranceDeductibleFraction := 3/10
    npReinsuranceLimitFraction := 6/10
    riskChar := [⟨1000, 1, 5, 0⟩] }

/-- A random-stream oracle whose Beta draw returns the mean of the
distribution it is asked to sample and whose uniform draw returns the sum
of its bounds. -/
def c5Rng : Rng :=
  { beta := fun a b _ _ => a / (a + b)
    uniform := fun a b _ _ => a + b }

/-- A firm for the capacity-target scenarios: target 100, thresholds
0.9 / 1.2, factors 0.9 / 1.1, no uncovered regions (so the reinsurance VaR
estimate is just `max_var`). -/
def c7Firm : Firm :=
  { firm0 with
    capacityTarget := 100
    capacityTargetIncrementThreshold := 12/10
    capacityTargetDecrementThreshold := 9/10
    capacityTargetIncrementFactor := 11/10
    capacityTargetDecrementFactor := 9/10
    riskChar := [⟨0, 0, 0, 0⟩]
    uncovered := [[]] }

/-- A firm whose cash exactly equals the max VaR of interest (100). -/
def c8Firm : Firm := { c7Firm with cash := 100 }

/-- A firm whose cash (200) strictly exceeds the max VaR of interest (100). -/
def c8Firm2 : Firm := { c7Firm with cash := 200 }

/-- A firm with zero underwritten risks in category 0. -/
def c9Firm0 : Firm := { firm0 with riskChar := [⟨0, 0, 0, 0⟩], uncovered := [[]] }

/-- A firm whose only uncovered interval [0, 50) lies entirely below the
deductible bound 100, so clipping leaves no tranches. -/
def c9Firm2 : Firm :=
  { c1GoodFirm with
    riskChar := [⟨1000, 1, 1, 0⟩]
    uncovered := [[(0, 50)]] }

/-- A firm used with `max_var = 0`: the reinsurance VaR estimate is then 0,
so the guarded division's denominator is 0. -/
def c10Firm : Firm :=
  { firm0 with
    capacityTarget := 100
    capacityTargetIncrementFactor := 11/10
    riskChar := [⟨0, 0, 0, 0⟩]
    uncovered := [[]] }

/-! ## Theorems -/

/-- `pay` leaves the obligation list untouched. -/
theorem pay_obligations (s : SimState) (a : ℚ) (r : Nat) :
    (pay s a r).obligations = s.obligations := rfl

/-- Folding `pay` over a list of obligations leaves the obligation list of
the state untouched. -/
theorem foldl_pay_obligations (l : List Obligation) (s : SimState) :
    (l.foldl (fun st o => pay st o.amount o.recipient) s).obligations = s.obligations := by
  induction l generalizing s with
  | nil => rfl
  | cons o os ih => rw [List.foldl_cons, ih, pay_obligations]

/-- Folding `pay` over a list of obligations subtracts the total amount
from the money supply. -/
theorem foldl_pay_money (l : List Obligation) (s : SimState) :
    (l.foldl (fun st o => pay st o.amount o.recipient) s).moneySupply
      = s.moneySupply - (l.map Obligation.amount).sum := by
  induction l generalizing s with
  | nil => simp
  | cons o os ih =>
    rw [List.foldl_cons, ih]
    simp [pay]
    ring

/-- Claim C2, amended: settling obligations at tick `t` pays exactly the
pending obligations whose due time is at most `t` — they are removed from
the ledger and their total amount is deducted from the money supply — but a
payment that would drive the money supply negative is NOT fatal: the
swallowed assertion only prints a warning, the payment is still made, and
execution continues (see `C2_counterexample`). -/
theorem C2_theorem (s : SimState) (t : ℤ) :
    (effectPayments s t).obligations = s.obligations.filter (fun o => t < o.dueTime)
    ∧ (effectPayments s t).moneySupply
        = s.moneySupply
          - ((s.obligations.filter (fun o => o.dueTime ≤ t)).map Obligation.amount).sum := by
  constructor
  · rw [effectPayments]
    exact foldl_pay_obligations _ _
  · rw [effectPayments]
    exact foldl_pay_money _ _

/-- Claim C2, counterexample to the claim as stated: with money supply 50
and a due obligation of 100, the code does not fail — it prints the
"economy out of money" warning (counted once), still makes the payment
(recipient 7 is credited 100) and continues with a negative money supply
of -50, contradicting "execution does not continue past it and the payment
is not made". -/
theorem C2_counterexample :
    (effectPayments c2State 1).moneySupply = -50
    ∧ (effectPayments c2State 1).received 7 = 100
    ∧ (effectPayments c2State 1).warnings = 1
    ∧ (effectPayments c2State 1).obligations = [] := by
  norm_num [effectPayments, pay, c2State, List.filter, List.foldl]

/-- Claim C3, amended: at tick `t`, a category's schedule head is consumed
exactly when it equals `t` (and exactly then the peril is inflicted, i.e.
the category fires); a head strictly less than `t` is NOT fatal: the
swallowed assertion only prints a warning, the stale head stays in place,
and the loop continues with the next category (see `C3_counterexample`). -/
theorem C3_theorem (t : ℤ) (scheds : List (List ℤ)) (i : Nat) (hd : ℤ) (rest : List ℤ)
    (hi : i < scheds.length) (hs : scheds.getD i [] = hd :: rest) :
    (iterateEvents t scheds).schedules.getD i [] = (if hd = t then rest else hd :: rest)
    ∧ (i ∈ (iterateEvents t scheds).fired ↔ hd = t)
    ∧ (i ∈ (iterateEvents t scheds).warned ↔ hd < t) := by
  have hget : scheds.getD i [] = scheds[i] := List.getD_eq_getElem scheds [] hi
  refine ⟨?_, ?_, ?_⟩
  · have hlen : i < ((iterateEvents t scheds).schedules).length := by
      simp [iterateEvents, hi]
    rw [List.getD_eq_getElem _ [] hlen]
    simp only [iterateEvents, List.getElem_map]
    rw [← hget, hs]
    simp [processCategory]
  · simp only [iterateEvents, List.mem_filter, List.mem_range]
    rw [hs]
    simp [processCategory, hi]
  · simp only [iterateEvents, List.mem_filter, List.mem_range]
    rw [hs]
    simp [processCategory, hi]

/-- Claim C3, witness: at tick 5 with schedule [5, 9] for category 0, the
head equals the tick, the category fires, the head is consumed and no
warning is printed. -/
theorem C3_witness :
    (iterateEvents 5 [[5, 9]]).schedules.getD 0 [] = (if (5:ℤ) = 5 then [9] else [5, 9])
    ∧ (0 ∈ (iterateEvents 5 [[5, 9]]).fired ↔ (5:ℤ) = 5)
    ∧ (0 ∈ (iterateEvents 5 [[5, 9]]).warned ↔ (5:ℤ) < 5) :=
  C3_theorem 5 [[5, 9]] 0 5 [9] (by decide) (by decide)

/-- Claim C3, counterexample to the claim as stated: at tick 1 with
schedule head 0 (strictly less than the tick), the code does not fail — it
prints the stale-head warning (category 0 recorded in `warned`), leaves
the unconsumed past event in place and continues: the loop completes with
no peril inflicted, contradicting "fails fatally … execution does not
continue past that check". -/
theorem C3_counterexample :
    iterateEvents 1 [[0]] = ⟨[[0]], [], [0]⟩ := by decide

/-- Claim C5, amended: when a category fires, one category-level severity
`s` is drawn from the global damage distribution, and for every active
contract of the category an independent per-contract damage realization is
drawn from a Beta(1, 1/s - 1) distribution — whose mean equals `s`, not
`1 - 1/s` — together with a uniform trigger threshold on [0, 1], and
`explode` is called on each such contract with these two draws. -/
theorem C5_theorem (s : ℚ) (h0 : 0 < s) (_h1 : s < 1) (rng : Rng)
    (contracts : List ContractRef) (categ : Nat) (ei : Bool) (t : ℤ) (i n : Nat)
    (hn : n = (contracts.filter (fun c => c.category = categ)).length) (hi : i < n) :
    betaMean (betaParams s) = s
    ∧ (inflictPeril rng contracts categ ei t s).length = n
    ∧ (inflictPeril rng contracts categ ei t s).getD i ⟨0, false, 0, 0, 0⟩
        = { contractId := ((contracts.filter (fun c => c.category = categ)).getD i ⟨0, 0⟩).id
            expireImmediately := ei
            time := t
            uniformValue := rng.uniform 0 1 n i
            damageValue := rng.beta 1 (1 / s - 1) n i } := by
  have hs0 : s ≠ 0 := ne_of_gt h0
  refine ⟨?_, ?_, ?_⟩
  · unfold betaMean betaParams
    have h2 : (1 : ℚ) + (1 / s - 1) = 1 / s := by ring
    rw [h2, one_div_one_div]
  · simp [inflictPeril, hn]
  · have hlen : i < (inflictPeril rng contracts categ ei t s).length := by
      simpa [inflictPeril, hn] using hi
    rw [List.getD_eq_getElem _ _ hlen]
    simp only [inflictPeril, betaParams, List.getElem_map, List.getElem_range, hn]

/-- Claim C5, witness: one affected contract, severity 1/2, an oracle whose
Beta draw returns the mean of the requested distribution. -/
theorem C5_witness :
    betaMean (betaParams (1/2)) = 1/2
    ∧ (inflictPeril c5Rng [⟨0, 0⟩] 0 false 0 (1/2)).length = 1
    ∧ (inflictPeril c5Rng [⟨0, 0⟩] 0 false 0 (1/2)).getD 0 ⟨0, false, 0, 0, 0⟩
        = { contractId := ((([⟨0, 0⟩] : List ContractRef).filter (fun c => c.category = 0)).getD 0 ⟨0, 0⟩).id
            expireImmediately := false
            time := 0
            uniformValue := c5Rng.uniform 0 1 1 0
            damageValue := c5Rng.beta 1 (1 / (1/2) - 1) 1 0 } :=
  C5_theorem (1/2) (by norm_num) (by norm_num) c5Rng [⟨0, 0⟩] 0 false 0 0 1 (by decide) (by decide)

/-- Claim C5, counterexample to the claim as stated: at severity
`s = 1/2`, the Beta distribution the code samples
(`np.random.beta(1, 1/s - 1)`, i.e. Beta(1, 1)) has mean `1/2`, while the
claimed mean `1 - 1/s` equals `-1`; the two disagree (and a Beta variable
on [0, 1] cannot have a negative mean).  With the oracle that returns the
mean of the requested distribution, the contract's damage draw is 1/2. -/
theorem C5_counterexample :
    (inflictPeril c5Rng [⟨0, 0⟩] 0 false 0 (1/2)).map (fun c => c.damageValue) = [1/2]
    ∧ betaMean (betaParams (1/2)) = 1/2
    ∧ (1 - 1 / ((1:ℚ)/2)) = -1
    ∧ ¬((1/2 : ℚ) = -1) := by
  refine ⟨?_, ?_, by norm_num, by norm_num⟩
  · norm_num [inflictPeril, c5Rng, betaParams, List.range_succ]
  · unfold betaMean betaParams
    norm_num

/-- Claim C6, amended: `adjust_market_premium` sets the premium to
`norm_premium * (upper_price_limit - capital / (norm_premium * no_risks))`
clamped from below at `lower_price_limit * norm_premium`; for every
NONNEGATIVE aggregate-capital input (with a positive base premium and risk
count and `lower_price_limit ≤ upper_price_limit`) the result lies in the
corridor.  There is no upper clamp, so a negative aggregate capital
produces a premium above the upper corridor bound (see
`C6_counterexample`). -/
theorem C6_theorem (normPremium upperPriceLimit lowerPriceLimit noRisks capital : ℚ)
    (hn : 0 < normPremium) (hr : 0 < noRisks) (hc : 0 ≤ capital)
    (hl : lowerPriceLimit ≤ upperPriceLimit) :
    normPremium * lowerPriceLimit
        ≤ adjustMarketPremium normPremium upperPriceLimit lowerPriceLimit noRisks capital
    ∧ adjustMarketPremium normPremium upperPriceLimit lowerPriceLimit noRisks capital
        ≤ normPremium * upperPriceLimit := by
  have hdiv : 0 ≤ capital / (normPremium * noRisks) := div_nonneg hc (by positivity)
  have hsub : normPremium * (upperPriceLimit - capital / (normPremium * noRisks))
      = normPremium * upperPriceLimit - normPremium * (capital / (normPremium * noRisks)) := by
    ring
  have hprod : 0 ≤ normPremium * (capital / (normPremium * noRisks)) :=
    mul_nonneg hn.le hdiv
  simp only [adjustMarketPremium]
  split_ifs with h
  · exact ⟨le_refl _, mul_le_mul_of_nonneg_left hl hn.le⟩
  · constructor
    · linarith [not_lt.mp h]
    · rw [hsub]
      linarith

/-- Claim C6, witness: base premium 1, corridor [0.8, 1.2], one risk,
aggregate capital 0. -/
theorem C6_witness :
    (1 : ℚ) * (8/10) ≤ adjustMarketPremium 1 (12/10) (8/10) 1 0
    ∧ adjustMarketPremium 1 (12/10) (8/10) 1 0 ≤ (1 : ℚ) * (12/10) :=
  C6_theorem 1 (12/10) (8/10) 1 0 (by norm_num) (by norm_num) (by norm_num) (by norm_num)

/-- Claim C6, counterexample to the claim as stated: with base premium 1,
corridor [0.8, 1.2], one risk and aggregate capital -10, the computed
premium is 11.2, strictly above the upper corridor bound 1.2 — the code
clamps only from below, so "always lies within the corridor" fails for
negative aggregate capital. -/
theorem C6_counterexample :
    adjustMarketPremium 1 (12/10) (8/10) 1 (-10) = 56/5
    ∧ (1 : ℚ) * (12/10) < 56/5 := by
  unfold adjustMarketPremium
  norm_num

/-- Claim C7, confirmed: with a nonzero denominator (so that the quotient
of the source is the real division) and the decrement threshold at most the
increment threshold (the hysteresis-band ordering the claim describes),
`adjust_capacity_target` multiplies the capacity target by the increment
factor whenever the target/VaR quotient is strictly above the increment
threshold, multiplies it by the decrement factor whenever the quotient is
strictly below the decrement threshold, and leaves it unchanged whenever
the quotient lies strictly between the two thresholds. -/
theorem C7_theorem (firm : Firm) (maxVar : ℚ)
    (hne : maxVar + reinsuranceVarEstimate firm maxVar ≠ 0)
    (hth : firm.capacityTargetDecrementThreshold ≤ firm.capacityTargetIncrementThreshold) :
    (firm.capacityTargetIncrementThreshold
        < (firm.capacityTarget + reinsuranceVarEstimate firm maxVar)
            / (maxVar + reinsuranceVarEstimate firm maxVar) →
      adjustCapacityTarget firm maxVar
        = firm.capacityTarget * firm.capacityTargetIncrementFactor)
    ∧ ((firm.capacityTarget + reinsuranceVarEstimate firm maxVar)
            / (maxVar + reinsuranceVarEstimate firm maxVar)
          < firm.capacityTargetDecrementThreshold →
      adjustCapacityTarget firm maxVar
        = firm.capacityTarget * firm.capacityTargetDecrementFactor)
    ∧ (firm.capacityTargetDecrementThreshold
          < (firm.capacityTarget + reinsuranceVarEstimate firm maxVar)
              / (maxVar + reinsuranceVarEstimate firm maxVar) →
       (firm.capacityTarget + reinsuranceVarEstimate firm maxVar)
              / (maxVar + reinsuranceVarEstimate firm maxVar)
          < firm.capacityTargetIncrementThreshold →
      adjustCapacityTarget firm maxVar = firm.capacityTarget) := by
  have key : adjustCapacityTarget firm maxVar =
      (if firm.capacityTargetIncrementThreshold
            < (firm.capacityTarget + reinsuranceVarEstimate firm maxVar)
                / (maxVar + reinsuranceVarEstimate firm maxVar) then
         firm.capacityTarget * firm.capacityTargetIncrementFactor
       else if (firm.capacityTarget + reinsuranceVarEstimate firm maxVar)
                / (maxVar + reinsuranceVarEstimate firm maxVar)
              < firm.capacityTargetDecrementThreshold then
         firm.capacityTarget * firm.capacityTargetDecrementFactor
       else firm.capacityTarget) := by
    simp only [adjustCapacityTarget]
    rw [if_neg hne]
  rw [key]
  refine ⟨?_, ?_, ?_⟩
  · intro h
    rw [if_pos h]
  · intro h
    rw [if_neg (not_lt.mpr (by linarith)), if_pos h]
  · intro h1 h2
    rw [if_neg (not_lt.mpr h2.le), if_neg (not_lt.mpr h1.le)]

/-- Claim C7, witness: for `c7Firm` at `max_var = 50` the reinsurance VaR
estimate is 50, the quotient is 150/100 = 1.5, above the increment
threshold 1.2, and the target is multiplied by 1.1. -/
theorem C7_witness :
    (c7Firm.capacityTargetIncrementThreshold
        < (c7Firm.capacityTarget + reinsuranceVarEstimate c7Firm 50)
            / (50 + reinsuranceVarEstimate c7Firm 50) →
      adjustCapacityTarget c7Firm 50
        = c7Firm.capacityTarget * c7Firm.capacityTargetIncrementFactor)
    ∧ ((c7Firm.capacityTarget + reinsuranceVarEstimate c7Firm 50)
            / (50 + reinsuranceVarEstimate c7Firm 50)
          < c7Firm.capacityTargetDecrementThreshold →
      adjustCapacityTarget c7Firm 50
        = c7Firm.capacityTarget * c7Firm.capacityTargetDecrementFactor)
    ∧ (c7Firm.capacityTargetDecrementThreshold
          < (c7Firm.capacityTarget + reinsuranceVarEstimate c7Firm 50)
              / (50 + reinsuranceVarEstimate c7Firm 50) →
       (c7Firm.capacityTarget + reinsuranceVarEstimate c7Firm 50)
              / (50 + reinsuranceVarEstimate c7Firm 50)
          < c7Firm.capacityTargetIncrementThreshold →
      adjustCapacityTarget c7Firm 50 = c7Firm.capacityTarget) :=
  C7_theorem c7Firm 50
    (by norm_num [reinsuranceVarEstimate, getReinsurableFraction, c7Firm, firm0])
    (by norm_num [c7Firm, firm0])

/-- Claim C8, amended: `get_capacity` returns cash plus the reinsurance VaR
estimate only when cash STRICTLY exceeds the max VaR (`max_var < cash`);
when cash is less than or equal to the max VaR — including exact equality —
it returns cash alone.  The embedding is a pure function of the firm, so
firm state is unchanged. -/
theorem C8_theorem (firm : Firm) (maxVar : ℚ) :
    (maxVar < firm.cash →
      getCapacity firm maxVar = firm.cash + reinsuranceVarEstimate firm maxVar)
    ∧ (firm.cash ≤ maxVar → getCapacity firm maxVar = firm.cash) := by
  constructor
  · intro h
    rw [getCapacity, if_pos h]
  · intro h
    rw [getCapacity, if_neg (not_lt.mpr h)]

/-- Claim C8, witness: `c8Firm` has cash equal to the max VaR 100 and gets
capacity equal to cash alone; `c8Firm2` has cash 200 strictly above the max
VaR 100 and gets cash plus the estimate. -/
theorem C8_witness :
    getCapacity c8Firm 100 = c8Firm.cash
    ∧ getCapacity c8Firm2 100 = c8Firm2.cash + reinsuranceVarEstimate c8Firm2 100 :=
  ⟨(C8_theorem c8Firm 100).2 (by norm_num [c8Firm, c7Firm, firm0]),
   (C8_theorem c8Firm2 100).1 (by norm_num [c8Firm2, c7Firm, firm0])⟩

/-- Claim C8, counterexample to the claim as stated: `c8Firm` has cash 100,
so cash ≥ max_var holds at `max_var = 100` and the claim predicts capacity
cash + estimate = 200; the code's strict test `max_var < cash` fails and
`get_capacity` returns 100. -/
theorem C8_counterexample :
    (100 : ℚ) ≤ c8Firm.cash
    ∧ getCapacity c8Firm 100 = 100
    ∧ c8Firm.cash + reinsuranceVarEstimate c8Firm 100 = 200
    ∧ ¬((100 : ℚ) = 200) := by
  refine ⟨by norm_num [c8Firm, c7Firm, firm0], ?_, ?_, by norm_num⟩
  · rw [getCapacity, if_neg (by norm_num [c8Firm, c7Firm, firm0])]
    norm_num [c8Firm, c7Firm, firm0]
  · norm_num [reinsuranceVarEstimate, getReinsurableFraction, c8Firm, c7Firm, firm0]

/-- Claim C10, confirmed: when `max_var + reinsurance_var_estimate = 0`,
`adjust_capacity_target` takes the guarded branch — the quotient is never
formed (the source sets it to `np.inf` instead of dividing) — and the
capacity target is multiplied by the increment factor, because `np.inf`
exceeds the (finite) increment threshold. -/
theorem C10_theorem (firm : Firm) (maxVar : ℚ)
    (h : maxVar + reinsuranceVarEstimate firm maxVar = 0) :
    adjustCapacityTarget firm maxVar
      = firm.capacityTarget * firm.capacityTargetIncrementFactor := by
  simp only [adjustCapacityTarget]
  rw [if_pos h]

/-- Claim C10, witness: for `c10Firm` at `max_var = 0` the reinsurance VaR
estimate is 0, the denominator is 0, and the target 100 becomes 110. -/
theorem C10_witness :
    adjustCapacityTarget c10Firm 0
      = c10Firm.capacityTarget * c10Firm.capacityTargetIncrementFactor :=
  C10_theorem c10Firm 0
    (by norm_num [reinsuranceVarEstimate, getReinsurableFraction, c10Firm, firm0])

/-- Helper: the exact value of the cat-bond discounted premium stream with
per-period premium 10, runtime 12 and interest rate 1/100. -/
theorem totalPremium_c4_value :
    totalPremium 10 12 (1/100) = 1268250301319697206612010/11156683466653165551101 := by
  norm_num [totalPremium, List.range_succ]

/-- Helper: the concrete outcome of `issue_cat_bond` for `c4Firm` with
per-value premium 1/100 (hence per-period premium 10) and VaR quote 50. -/
theorem issueCatBond_c4 :
    issueCatBond c4Firm 0 0 (1/100) 50
      = some { firmCash := 1000 - (50 + totalPremium 10 12 (1/100))
               bondCash := 50 + totalPremium 10 12 (1/100)
               obligationToFirm := (50, 0)
               risk := { value := 1000, category := 0, insurancetype := "excess-of-loss"
                         numberRisks := 5, deductibleFraction := 3/10, limitFraction := 6/10
                         periodizedTotalPremium := 0, runtime := 12, expiration := 12
                         riskFactor := 1 } } := by
  norm_num [issueCatBond, c4Firm, firm0]

/-- Claim C4, amended: with VaR 50, per-period premium 10, runtime 12 and
interest rate 0.01, the discounted premium stream is approximately 113.68
(strictly between 113.67 and 113.68), NOT 112.68; the issuing firm's cash
decreases by exactly VaR plus that stream — approximately 163.68, not
162.68 — the new bond's cash increases by the same amount, and the
simulation takes on an obligation of the VaR 50 towards the firm due
immediately. -/
theorem C4_theorem :
    (issueCatBond c4Firm 0 0 (1/100) 50).map (fun r => c4Firm.cash - r.firmCash)
        = some (50 + totalPremium 10 12 (1/100))
    ∧ (issueCatBond c4Firm 0 0 (1/100) 50).map (fun r => r.bondCash)
        = some (50 + totalPremium 10 12 (1/100))
    ∧ (issueCatBond c4Firm 0 0 (1/100) 50).map (fun r => r.obligationToFirm)
        = some (50, 0)
    ∧ (11367/100 : ℚ) < totalPremium 10 12 (1/100)
    ∧ totalPremium 10 12 (1/100) < 11368/100 := by
  rw [issueCatBond_c4, totalPremium_c4_value]
  refine ⟨?_, rfl, rfl, by norm_num, by norm_num⟩
  norm_num [Option.map, c4Firm, firm0]

/-- Claim C4, counterexample to the claim as stated: the discounted premium
stream computed by the code exceeds 113.67, so it is not approximately
112.68 (it differs by more than 0.99), and the firm's cash decrease
`50 + stream` is not 162.68 (it exceeds 163.67). -/
theorem C4_counterexample :
    (11367/100 : ℚ) < totalPremium 10 12 (1/100)
    ∧ ¬(totalPremium 10 12 (1/100) = 11268/100)
    ∧ (99/100 : ℚ) < totalPremium 10 12 (1/100) - 11268/100
    ∧ (issueCatBond c4Firm 0 0 (1/100) 50).map (fun r => r.bondCash)
        = some (50 + totalPremium 10 12 (1/100))
    ∧ ¬(50 + totalPremium 10 12 (1/100) = 16268/100)
    ∧ (16367/100 : ℚ) < 50 + totalPremium 10 12 (1/100) := by
  rw [issueCatBond_c4, totalPremium_c4_value]
  refine ⟨by norm_num, by norm_num, by norm_num, rfl, by norm_num, by norm_num⟩

/-- Claim C1, demonstration of the divergence at the failing input and of
the part of the claim that does hold.  First conjuncts: for `c1BadFirm`
(total value 1000, band [100, 500), sole uncovered interval [100, 110) of
width 10), the discard step keeps the interval — the source's line 291
discards only widths at most `min(2, 5% of the band) = 2`, although the
claim (and the source's own comment) require discarding widths below
`max(2, 5% of the band) = 20` — and the method emits it as a tranche of
width 10 < 20.  Last conjunct: for `c1GoodFirm` (empty profile,
min_tranches 3) the method does emit exactly 3 disjoint tranches covering
[100, 500), of widths 100, 100 and 200, all at least 20. -/
theorem C1_code_evaluation :
    askReinsuranceNonProportionalByCategory c1BadFirm 0 0 "newrisk" 1
      = Except.ok ([{ value := 1000, category := 0, insurancetype := "excess-of-loss"
                      numberRisks := 5, deductibleFraction := 1/10, limitFraction := 11/100
                      periodizedTotalPremium := 0, runtime := 12, expiration := 12
                      riskFactor := 1 }], none)
    ∧ ((11/100 : ℚ) - 1/10) * 1000 = 10
    ∧ (10 : ℚ) < max 2 (5/100 * ((1/2 - 1/10) * 1000))
    ∧ askReinsuranceNonProportionalByCategory c1GoodFirm 0 0 "newrisk" 3
      = Except.ok ([{ value := 1000, category := 0, insurancetype := "excess-of-loss"
                      numberRisks := 5, deductibleFraction := 1/10, limitFraction := 1/5
                      periodizedTotalPremium := 0, runtime := 12, expiration := 12
                      riskFactor := 1 },
                    { value := 1000, category := 0, insurancetype := "excess-of-loss"
                      numberRisks := 5, deductibleFraction := 1/5, limitFraction := 3/10
                      periodizedTotalPremium := 0, runtime := 12, expiration := 12
                      riskFactor := 1 },
                    { value := 1000, category := 0, insurancetype := "excess-of-loss"
                      numberRisks := 5, deductibleFraction := 3/10, limitFraction := 1/2
                      periodizedTotalPremium := 0, runtime := 12, expiration := 12
                      riskFactor := 1 }], none) := by
  refine ⟨?_, by norm_num, by norm_num [max_def], ?_⟩
  · norm_num [askReinsuranceNonProportionalByCategory, c1BadFirm, c1GoodFirm, firm0,
      clipTop, clipTopRev, clipBottom, discardLoop, discardLoopF, trancheTooSmall,
      eraseFirst, growTranches, splitLongest, splitFirstMax, mkTrancheRisk,
      max_def, min_def, Except.map, List.forall_mem_cons]
  · norm_num [askReinsuranceNonProportionalByCategory, c1BadFirm, c1GoodFirm, firm0,
      clipTop, clipTopRev, clipBottom, discardLoop, discardLoopF, trancheTooSmall,
      eraseFirst, growTranches, splitLongest, splitFirstMax, mkTrancheRisk,
      max_def, min_def, Except.map, List.forall_mem_cons]

/-- Claim C9, confirmed: for a category with zero underwritten risks, both
the reinsurance request (any purpose) and the cat-bond issuance return the
no-action sentinel `None`, emitting no risk and leaving all state
unchanged (the embeddings are pure and emit the empty list); and whenever
the two clipping passes complete and the minimum-size discard leaves no
tranches, the reinsurance request likewise returns `None` and emits no
risk, without raising any error. -/
theorem C9_theorem (firm : Firm) (time : ℤ) (categ : Nat) (purpose : String)
    (minTranches : Nat) (pv var : ℚ) (t1 t2 : List (ℚ × ℚ)) :
    ((firm.riskChar.getD categ ⟨0, 0, 0, 0⟩).numberRisks = 0 →
      askReinsuranceNonProportionalByCategory firm time categ purpose minTranches
          = Except.ok ([], none)
        ∧ issueCatBond firm time categ pv var = none)
    ∧ (clipTop (firm.npReinsuranceLimitFraction
            * (firm.riskChar.getD categ ⟨0, 0, 0, 0⟩).totalValue)
          (firm.uncovered.getD categ []) = Except.ok t1 →
       clipBottom (firm.npReinsuranceDeductibleFraction
            * (firm.riskChar.getD categ ⟨0, 0, 0, 0⟩).totalValue) t1 = Except.ok t2 →
       discardLoop (trancheTooSmall firm (firm.riskChar.getD categ ⟨0, 0, 0, 0⟩).totalValue) t2
          = [] →
       askReinsuranceNonProportionalByCategory firm time categ purpose minTranches
          = Except.ok ([], none)) := by
  constructor
  · intro h
    have hn : ¬(0 < (firm.riskChar.getD categ ⟨0, 0, 0, 0⟩).numberRisks) := by
      rw [h]
      exact lt_irrefl 0
    constructor
    · simp only [askReinsuranceNonProportionalByCategory]
      rw [if_neg hn]
    · simp only [issueCatBond]
      rw [if_neg hn]
  · intro h1 h2 h3
    simp only [askReinsuranceNonProportionalByCategory]
    by_cases hn : 0 < (firm.riskChar.getD categ ⟨0, 0, 0, 0⟩).numberRisks
    · rw [if_pos hn, h1]
      dsimp only
      rw [h2]
      dsimp only
      rw [h3, if_pos rfl]
    · rw [if_neg hn]

/-- Claim C9, witness: `c9Firm0` has zero underwritten risks in
category 0, so both operations return the sentinel; `c9Firm2` has one
underwritten risk but its only uncovered interval [0, 50) is clipped away
entirely by the deductible bound 100, so the request returns the sentinel
too. -/
theorem C9_witness :
    (askReinsuranceNonProportionalByCategory c9Firm0 0 0 "newrisk" 3 = Except.ok ([], none)
      ∧ issueCatBond c9Firm0 0 0 0 0 = none)
    ∧ askReinsuranceNonProportionalByCategory c9Firm2 0 0 "newrisk" 3 = Except.ok ([], none) :=
  ⟨(C9_theorem c9Firm0 0 0 "newrisk" 3 0 0 [] []).1 (by norm_num [c9Firm0, firm0]),
   (C9_theorem c9Firm2 0 0 "newrisk" 3 0 0 [(0, 50)] []).2
     (by norm_num [clipTop, clipTopRev, c9Firm2, c1GoodFirm, firm0, Except.map])
     (by norm_num [clipBottom, c9Firm2, c1GoodFirm, firm0])
     (by norm_num [discardLoop, discardLoopF])⟩

end Isle
